import Mathlib

/-!
Verification of the marketplace scraping / persistence / analysis pipeline
implemented in `src/data/Main.py`.

The embedding is shallow: Python floats are modelled as exact rationals
(`ℚ`), the SQLite table of `DatabaseManager` as a list of `StoredAsset`
rows threaded through each call, HTML pages parsed by BeautifulSoup as
lists of candidate `ListingBlock` records, and Python exceptions as an
explicit `Except` layer whose error values name the exception class.
-/

/-- Error classes that the per-listing code of
`MarketplaceScraper.scrape_page` (Main.py lines 78-89) can raise.
`attributeError` and `valueError` are the two classes caught by the
`except (AttributeError, ValueError)` clause at line 87; `typeError`
models `None["href"]` when a candidate block has no anchor tag, and
`keyError` models `tag["href"]` when the anchor lacks an `href`
attribute.  Neither of the latter two is caught anywhere in the file. -/
inductive PyError where
  | attributeError
  | valueError
  | typeError
  | keyError
deriving DecidableEq

/-- Candidate listing block, i.e. one `div` with class `item-class` as seen
by the loop at Main.py line 78.  `h2` is the text of its first `h2` tag if
any; `priceSpan` is the text of its first `span` of class `price-class` if
any; `anchor` is `none` when the block has no `a` tag, `some none` when the
first `a` tag has no `href` attribute, and `some (some l)` when that
attribute holds `l`. -/
structure ListingBlock where
  h2 : Option String
  priceSpan : Option String
  anchor : Option (Option String)
deriving DecidableEq

/-- Listing tuple `(title, price, link)` appended to `items` at
Main.py line 86. -/
abbrev Listing := String × ℚ × String

/-- Persisted row of the `assets` table created by
`DatabaseManager.setup_database` (Main.py lines 23-29).  The `date_added`
column defaults to the wall-clock insertion time and is never read by the
core pipeline, so it is left outside the model. -/
structure StoredAsset where
  id : Nat
  title : String
  price : ℚ
  link : String
deriving DecidableEq

/-- Parameter tuple handed to `executemany` by
`DatabaseManager.insert_assets` (Main.py lines 40-43).  A `none` field
models a SQL `NULL` bind value, which violates the `NOT NULL` constraints
of the `assets` schema and makes the insert raise `sqlite3.IntegrityError`. -/
structure InsertRow where
  title : Option String
  price : Option ℚ
  link : Option String
deriving DecidableEq

/-- Arithmetic mean of a list of prices, i.e. `df["price"].mean()` used at
Main.py line 151.  Division by zero in `ℚ` yields `0`. -/
def mean (l : List ℚ) : ℚ := l.sum / l.length

/-- Linear-interpolation quantile `df["price"].quantile(q)` used at
Main.py line 148: pandas sorts the values, sets `pos = q * (n - 1)`,
splits `pos` into integer part `i` and fractional part `frac`, and
returns `sorted[i] + frac * (sorted[i+1] - sorted[i])`.  When `frac = 0`
the `i+1` entry is irrelevant; `getD` then defaults to `sorted[i]`. -/
def quantile (prices : List ℚ) (q : ℚ) : ℚ :=
  let sorted := List.insertionSort (fun a b : ℚ => a ≤ b) prices
  let pos := q * ((sorted.length : ℚ) - 1)
  let i := (⌊pos⌋).toNat
  let lo := sorted.getD i 0
  let hi := sorted.getD (i + 1) lo
  lo + (pos - (⌊pos⌋ : ℚ)) * (hi - lo)

/-- Comparison key of `undervalued.sort_values("discount_percent")`
(Main.py line 155): ascending order on the computed discount column. -/
def discLE (x y : StoredAsset × ℚ) : Prop := x.2 ≤ y.2

instance : DecidableRel discLE :=
  fun x y => inferInstanceAs (Decidable (x.2 ≤ y.2))

instance : IsTotal (StoredAsset × ℚ) discLE :=
  ⟨fun x y => le_total x.2 y.2⟩

instance : IsTrans (StoredAsset × ℚ) discLE :=
  ⟨fun _ _ _ h1 h2 => le_trans h1 h2⟩

/-- `AssetAnalyzer.identify_undervalued_assets` (Main.py lines 142-155).
The snapshot `df` is the row list of the store; the result pairs each
selected row with its `discount_percent` column.  `sort_values` with
`ascending=False` is executed by pandas as the reverse of an ascending
argsort of the column (`nargsort` computes the ascending permutation and
reverses it); the ascending argsort is modelled by the stable
`insertionSort`, which matches numpy's small-array insertion-sort regime.
Note the mean at line 151 ranges over the full snapshot, not the selected
subset. -/
def identify_undervalued_assets (df : List StoredAsset)
    (threshold_percentile : ℚ) : List (StoredAsset × ℚ) :=
  if df = [] then []
  else
    let price_threshold := quantile (df.map (fun a => a.price)) (threshold_percentile / 100)
    let meanPrice := mean (df.map (fun a => a.price))
    let undervalued := df.filter (fun a => a.price < price_threshold)
    let annotated := undervalued.map
      (fun a => (a, (meanPrice - a.price) / meanPrice * 100))
    (List.insertionSort discLE annotated).reverse

/-- Accumulated digit value of a run of decimal digit characters. -/
def digitsVal (ds : List Char) : Nat :=
  ds.foldl (fun n c => 10 * n + (c.toNat - 48)) 0

/-- Magnitude part of Python's `float()` on a decimal literal: a digit run,
optionally followed by a dot and a second digit run, with at least one
digit overall. -/
def pyFloatMag (cs : List Char) : Option ℚ :=
  let intPart := cs.takeWhile Char.isDigit
  let afterInt := cs.dropWhile Char.isDigit
  match afterInt with
  | [] => if intPart = [] then none else some (digitsVal intPart)
  | '.' :: fracCs =>
      if fracCs.all Char.isDigit ∧ (intPart ≠ [] ∨ fracCs ≠ []) then
        some ((digitsVal intPart : ℚ) + (digitsVal fracCs : ℚ) / (10 : ℚ) ^ fracCs.length)
      else none
  | _ => none

/-- Modelled from Python's builtin `float()` as invoked at Main.py line 82,
restricted to the plain decimal forms that price strings can take: optional
surrounding whitespace, an optional sign, digits with an optional single
decimal point.  Exponent, underscore, `inf` and `nan` forms are outside the
domain of scraped price text and are not modelled.  A `none` result stands
for the `ValueError` that `float()` raises on unparsable input. -/
def pyFloat (s : String) : Option ℚ :=
  let cs0 := s.toList.dropWhile Char.isWhitespace
  let cs := (cs0.reverse.dropWhile Char.isWhitespace).reverse
  match cs with
  | '-' :: rest => (pyFloatMag rest).map (fun q => -q)
  | '+' :: rest => pyFloatMag rest
  | rest => pyFloatMag rest

/-- Price-string normalisation and conversion at Main.py line 82:
`float(price_text.replace("$", "").replace(",", ""))`.  For the
single-character patterns used there, `str.replace` with an empty
replacement deletes every occurrence of the character. -/
def parse_price (s : String) : Option ℚ :=
  pyFloat (String.mk (s.toList.filter (fun c => c ≠ '$' ∧ c ≠ ',')))

/-- Per-candidate body of the loop at Main.py lines 79-86, with each Python
exception surfaced as an `Except.error`.  The title falls back to `"N/A"`
when the block has no `h2` (line 80); a missing price span makes
`None.get_text` raise `AttributeError` (line 81); an unparsable price
string raises `ValueError` (line 82); a missing anchor makes
`None["href"]` raise `TypeError` and an anchor without the attribute
raises `KeyError` (line 83).  A candidate that survives extraction is kept
only when the title is not the `"N/A"` placeholder, the price is strictly
positive and the link is non-empty (line 85). -/
def parseListing (b : ListingBlock) : Except PyError (Option Listing) :=
  let title := match b.h2 with
    | some t => t
    | none => "N/A"
  match b.priceSpan with
  | none => Except.error PyError.attributeError
  | some priceText =>
    match parse_price priceText with
    | none => Except.error PyError.valueError
    | some price =>
      match b.anchor with
      | none => Except.error PyError.typeError
      | some none => Except.error PyError.keyError
      | some (some link) =>
        if title ≠ "N/A" ∧ 0 < price ∧ link ≠ "" then
          Except.ok (some (title, price, link))
        else
          Except.ok none

/-- Candidate loop of `MarketplaceScraper.scrape_page` (Main.py lines
76-92): each block is parsed in order; `AttributeError` and `ValueError`
are caught at line 87 and skip the candidate, an accepted candidate is
appended, a rejected one is dropped, and any other exception propagates
out of the loop, aborting the page. -/
def scrapeItems : List ListingBlock → Except PyError (List Listing)
  | [] => Except.ok []
  | b :: bs =>
    match parseListing b with
    | Except.ok (some item) =>
      match scrapeItems bs with
      | Except.ok rest => Except.ok (item :: rest)
      | Except.error e => Except.error e
    | Except.ok none => scrapeItems bs
    | Except.error PyError.attributeError => scrapeItems bs
    | Except.error PyError.valueError => scrapeItems bs
    | Except.error e => Except.error e

/-- `MarketplaceScraper.scrape_page` (Main.py lines 69-96).  The network
oracle `net` maps a URL either to the candidate blocks of a successfully
fetched page or to `none` for any `requests.exceptions.RequestException`
(connection error, timeout, or the non-2xx status surfaced by
`raise_for_status`); the handler at lines 94-96 turns the latter into an
empty item list. -/
def scrape_page (net : String → Option (List ListingBlock)) (url : String) :
    Except PyError (List Listing) :=
  match net url with
  | none => Except.ok []
  | some blocks => scrapeItems blocks

/-- URL built at Main.py line 102 for one page index. -/
def page_url (base : String) (n : ℤ) : String :=
  base ++ "/page/" ++ toString n

/-- Page indices visited by the loop at Main.py line 101, i.e. Python's
`range(start_page, end_page + 1)`: empty when `start_page > end_page`. -/
def pageRange (start_page end_page : ℤ) : List ℤ :=
  (List.range (end_page + 1 - start_page).toNat).map (fun i : Nat => start_page + (i : ℤ))

/-- Body of the page loop of `scrape_multiple_pages` (Main.py lines
100-106): pages are fetched in order, their items concatenated into
`all_items`, and any exception escaping `scrape_page` propagates
immediately.  The fixed `time.sleep(1)` between pages has no effect on the
returned value. -/
def scrapeLoop (net : String → Option (List ListingBlock)) (base : String) :
    List ℤ → Except PyError (List Listing)
  | [] => Except.ok []
  | n :: ns =>
    match scrape_page net (page_url base n) with
    | Except.error e => Except.error e
    | Except.ok items =>
      match scrapeLoop net base ns with
      | Except.error e => Except.error e
      | Except.ok rest => Except.ok (items ++ rest)

/-- `MarketplaceScraper.scrape_multiple_pages` (Main.py lines 98-106). -/
def scrape_multiple_pages (net : String → Option (List ListingBlock))
    (base : String) (start_page end_page : ℤ) : Except PyError (List Listing) :=
  scrapeLoop net base (pageRange start_page end_page)

/-- Items of a page result as seen by the caller: the listings of a page
whose processing completed, and nothing for a page whose processing
raised. -/
def okItems (r : Except PyError (List Listing)) : List Listing :=
  match r with
  | Except.ok l => l
  | Except.error _ => []

/-- Validity of one bind tuple under the `NOT NULL` constraints of the
`assets` schema (Main.py lines 23-29): every field must be non-`NULL`. -/
def rowValid (r : InsertRow) : Bool :=
  r.title.isSome && r.price.isSome && r.link.isSome

/-- Largest `id` present in the table.  SQLite assigns a fresh
`INTEGER PRIMARY KEY` as one more than the largest existing rowid, which
for this append-only table makes ids monotone in insertion order. -/
def maxId (rows : List StoredAsset) : Nat :=
  rows.foldl (fun m a => max m a.id) 0

/-- One `INSERT INTO assets (title, price, link) VALUES (?, ?, ?)` step of
the `executemany` at Main.py lines 40-43: a fully bound tuple appends a row
with the next id, a `NULL` bind violates a `NOT NULL` constraint and
raises. -/
def insertOneRow (rows : List StoredAsset) (r : InsertRow) :
    Except Unit (List StoredAsset) :=
  match r.title, r.price, r.link with
  | some t, some p, some l => Except.ok (rows ++ [⟨maxId rows + 1, t, p, l⟩])
  | _, _, _ => Except.error ()

/-- `cursor.executemany` over the batch: tuples are inserted in order
inside one implicit transaction, stopping at the first failing tuple. -/
def executemany : List StoredAsset → List InsertRow → Except Unit (List StoredAsset)
  | rows, [] => Except.ok rows
  | rows, r :: rs =>
    match insertOneRow rows r with
    | Except.ok rows2 => executemany rows2 rs
    | Except.error e => Except.error e

/-- `DatabaseManager.insert_assets` (Main.py lines 36-50): on success the
transaction is committed and the call returns `True`; on any
`sqlite3.Error` the transaction is rolled back, restoring the table as it
was before the call, and the call returns `False`.  The state is the row
list of the `assets` table, passed explicitly. -/
def insert_assets (rows : List StoredAsset) (assets : List InsertRow) :
    Bool × List StoredAsset :=
  match executemany rows assets with
  | Except.ok rows2 => (true, rows2)
  | Except.error _ => (false, rows)

/-- `DatabaseManager.get_all_assets` (Main.py lines 52-54):
`SELECT * FROM assets` returns every row in rowid order, which for this
append-only table is insertion order. -/
def get_all_assets (rows : List StoredAsset) : List StoredAsset := rows

/-- Input-order stability of ties as claimed by the spec: whenever two
rows of the output carry the same discount, the earlier output row came
from an earlier snapshot position (positions read off via the rows'
distinct ids). -/
def stableTies (df : List StoredAsset) (out : List (StoredAsset × ℚ)) : Prop :=
  out.Pairwise (fun x y => x.2 = y.2 →
    (df.map (fun a => a.id)).indexOf x.1.id ≤ (df.map (fun a => a.id)).indexOf y.1.id)

/-- Snapshot with prices 10, 20, 30, 40, 100 from the spec's worked
analyzer example. -/
def exC1 : List StoredAsset :=
  [⟨1, "a", 10, "l1"⟩, ⟨2, "b", 20, "l2"⟩, ⟨3, "c", 30, "l3"⟩,
   ⟨4, "d", 40, "l4"⟩, ⟨5, "e", 100, "l5"⟩]

/-- Snapshot with two tied low prices used to refute the stability part of
claim C3. -/
def exC3 : List StoredAsset :=
  [⟨1, "a", 10, "la"⟩, ⟨2, "b", 10, "lb"⟩, ⟨3, "c", 100, "lc"⟩, ⟨4, "d", 100, "ld"⟩]

/-- Candidate block whose title and price parse but which carries no
anchor tag at all. -/
def blockNoAnchor : ListingBlock := ⟨some "Widget", some "$5.00", none⟩

/-- Fully well-formed candidate block. -/
def blockGood : ListingBlock := ⟨some "Gadget", some "$7.00", some (some "http://x/g")⟩

/-- Candidate block with no price span. -/
def blockNoPrice : ListingBlock := ⟨some "Thing", none, some (some "http://x/t")⟩

/-- Network oracle for the C9 witness: page 1 of base `w` fetches with no
candidate blocks, every other URL fails at network level. -/
def netW : String → Option (List ListingBlock) :=
  fun url => if url = "w/page/1" then some [] else none

/-- Network oracle for the C9 counterexample: page 1 of base `b` fetches a
single candidate block that has no anchor tag. -/
def netBad : String → Option (List ListingBlock) :=
  fun url => if url = "b/page/1" then some [blockNoAnchor] else none

/-- Network oracle that fails on every URL. -/
def netNone : String → Option (List ListingBlock) := fun _ => none

/-- Valid listing tuples used to exercise the store claims. -/
def rowA : InsertRow := ⟨some "alpha", some 1, some "la"⟩

def rowB : InsertRow := ⟨some "beta", some 2, some "lb"⟩

/-- Reverse-of-sort normal form of the analyzer on a non-empty snapshot. -/
theorem identify_eq_of_ne (df : List StoredAsset) (p : ℚ) (hne : df ≠ []) :
    identify_undervalued_assets df p
      = (List.insertionSort discLE
          ((df.filter (fun a => a.price < quantile (df.map (fun a => a.price)) (p / 100))).map
            (fun a => (a, (mean (df.map (fun a => a.price)) - a.price)
              / mean (df.map (fun a => a.price)) * 100)))).reverse := by
  simp [identify_undervalued_assets, hne]

/-- Key fact about `executemany` on a fully valid batch: it succeeds and
appends exactly one row per tuple, carrying the tuple's fields and ids
counting up from one past the largest id already present. -/
theorem executemany_ok : ∀ (assets : List InsertRow) (rows : List StoredAsset),
    assets.all rowValid = true →
    ∃ tail, executemany rows assets = Except.ok (rows ++ tail)
      ∧ tail.map (fun a => ((some a.title : Option String), (some a.price : Option ℚ),
          (some a.link : Option String)))
          = assets.map (fun r => (r.title, r.price, r.link))
      ∧ tail.map (fun a => a.id) = List.range' (maxId rows + 1) assets.length := by
  intro assets
  induction assets with
  | nil =>
    intro rows h
    exact ⟨[], by simp [executemany], by simp, by simp [List.range']⟩
  | cons r rs ih =>
    intro rows h
    simp only [List.all_cons, Bool.and_eq_true] at h
    obtain ⟨hr, hrs⟩ := h
    rcases r with ⟨ot, op, ol⟩
    rcases ot with _ | t
    · simp [rowValid] at hr
    rcases op with _ | p
    · simp [rowValid] at hr
    rcases ol with _ | l
    · simp [rowValid] at hr
    obtain ⟨tail, h1, h2, h3⟩ := ih (rows ++ [⟨maxId rows + 1, t, p, l⟩]) hrs
    have hm : maxId (rows ++ [⟨maxId rows + 1, t, p, l⟩]) = maxId rows + 1 := by
      simp [maxId, List.foldl_append]
    refine ⟨⟨maxId rows + 1, t, p, l⟩ :: tail, ?_, ?_, ?_⟩
    · have hstep : executemany rows (⟨some t, some p, some l⟩ :: rs)
          = executemany (rows ++ [⟨maxId rows + 1, t, p, l⟩]) rs := rfl
      rw [hstep, h1]
      simp
    · simp only [List.map_cons, h2]
    · rw [hm] at h3
      simp only [List.map_cons, h3, List.length_cons, List.range'_succ]

/-- Dual fact: a batch containing an invalid tuple makes `executemany`
raise before reaching the commit. -/
theorem executemany_fail : ∀ (assets : List InsertRow) (rows : List StoredAsset),
    assets.all rowValid = false →
    executemany rows assets = Except.error () := by
  intro assets
  induction assets with
  | nil =>
    intro rows h
    simp [List.all_nil] at h
  | cons r rs ih =>
    intro rows h
    rcases r with ⟨ot, op, ol⟩
    rcases ot with _ | t
    · rfl
    rcases op with _ | p
    · rfl
    rcases ol with _ | l
    · rfl
    have hrs : rs.all rowValid = false := by
      simpa [List.all_cons, rowValid] using h
    exact ih (rows ++ [⟨maxId rows + 1, t, p, l⟩]) hrs

/-- Concatenation shape of the page loop when every visited page is
processed without an uncaught exception. -/
theorem scrapeLoop_ok (net : String → Option (List ListingBlock)) (base : String) :
    ∀ ns : List ℤ,
      (∀ n ∈ ns, ∃ items, scrape_page net (page_url base n) = Except.ok items) →
      scrapeLoop net base ns
        = Except.ok ((ns.map (fun n => okItems (scrape_page net (page_url base n)))).flatten) := by
  intro ns
  induction ns with
  | nil => intro h; rfl
  | cons n ns ih =>
    intro h
    obtain ⟨items, hi⟩ := h n (List.mem_cons_self _ _)
    have ih2 := ih (fun m hm => h m (List.mem_cons_of_mem _ hm))
    simp [scrapeLoop, hi, ih2, okItems]

/-- Claim C1: on an empty snapshot the analyzer returns the empty
sequence; on any snapshot it returns exactly the assets whose price is
strictly below the linear-interpolation percentile of the prices (price
equal to the threshold is excluded); and on prices 10, 20, 30, 40, 100
with percentile 25 the threshold is 20 and only the asset priced 10 is
selected. -/
theorem C1_percentile_filter (df : List StoredAsset) (p : ℚ) :
    identify_undervalued_assets [] p = []
    ∧ ((identify_undervalued_assets df p).map Prod.fst).Perm
        (df.filter (fun a => a.price < quantile (df.map (fun a => a.price)) (p / 100)))
    ∧ quantile [10, 20, 30, 40, 100] (25 / 100) = 20
    ∧ (identify_undervalued_assets exC1 25).map (fun x => x.1.price) = [10] := by
  refine ⟨rfl, ?_, ?_, ?_⟩
  · by_cases hne : df = []
    · subst hne
      simp [identify_undervalued_assets]
    · rw [identify_eq_of_ne df p hne]
      have hAfst : ((df.filter (fun a => a.price < quantile (df.map (fun a => a.price)) (p / 100))).map
            (fun a => (a, (mean (df.map (fun a => a.price)) - a.price)
              / mean (df.map (fun a => a.price)) * 100))).map Prod.fst
          = df.filter (fun a => a.price < quantile (df.map (fun a => a.price)) (p / 100)) := by
        simp [List.map_map, Function.comp_def]
      conv_rhs => rw [← hAfst]
      exact ((List.reverse_perm _).trans (List.perm_insertionSort discLE _)).map Prod.fst
  · norm_num [quantile, List.insertionSort, List.orderedInsert]
  · have hev : identify_undervalued_assets exC1 25 = [(⟨1, "a", 10, "l1"⟩, 75)] := by
      norm_num [identify_undervalued_assets, quantile, mean, discLE, exC1,
        List.insertionSort, List.orderedInsert, List.cons_ne_nil]
    rw [hev]
    rfl

/-- Claim C2: every selected asset is annotated with
`discount_percent = (meanPrice - price) / meanPrice * 100`, where
`meanPrice` is the mean over the full snapshot, not over the selected
subset: the analyzer's output equals itself re-annotated by that formula. -/
theorem C2_discount_formula (df : List StoredAsset) (p : ℚ) (hne : df ≠ []) :
    identify_undervalued_assets df p
      = (identify_undervalued_assets df p).map
          (fun x => (x.1, (mean (df.map (fun a => a.price)) - x.1.price)
            / mean (df.map (fun a => a.price)) * 100)) := by
  have hmem : ∀ x ∈ identify_undervalued_assets df p,
      x.2 = (mean (df.map (fun a => a.price)) - x.1.price)
        / mean (df.map (fun a => a.price)) * 100 := by
    intro x hx
    rw [identify_eq_of_ne df p hne, List.mem_reverse] at hx
    have hx2 := (List.perm_insertionSort discLE _).mem_iff.mp hx
    obtain ⟨a, ha, rfl⟩ := List.mem_map.mp hx2
    rfl
  conv_lhs => rw [← List.map_id (identify_undervalued_assets df p)]
  apply List.map_congr_left
  intro x hx
  rw [id_eq, Prod.ext_iff]
  exact ⟨rfl, hmem x hx⟩

/-- Witness for C2 on the five-asset snapshot at percentile 25. -/
theorem C2_discount_formula_witness :
    exC1 ≠ []
    ∧ identify_undervalued_assets exC1 25
        = (identify_undervalued_assets exC1 25).map
            (fun x => (x.1, (mean (exC1.map (fun a => a.price)) - x.1.price)
              / mean (exC1.map (fun a => a.price)) * 100)) :=
  ⟨by decide, C2_discount_formula exC1 25 (by decide)⟩

/-- Claim C3 (amended): the analyzer's output is sorted by
`discount_percent` in descending order.  Equal-discount assets are NOT
kept in input order: pandas executes `sort_values(ascending=False)` as the
reverse of an ascending argsort of the column, so in the modelled regime
ties come out in reverse input order. -/
theorem C3_sorted_descending (df : List StoredAsset) (p : ℚ) :
    (identify_undervalued_assets df p).Pairwise (fun x y => y.2 ≤ x.2) := by
  by_cases hne : df = []
  · subst hne
    simp [identify_undervalued_assets]
  · rw [identify_eq_of_ne df p hne, List.pairwise_reverse]
    exact List.sorted_insertionSort discLE _

/-- Claim C3 as stated is false: on the snapshot with prices
10, 10, 100, 100 and percentile 50 the two selected assets share the same
discount, yet the analyzer emits them in reverse input order (id 2 before
id 1), so the output is not stable on ties even though it is sorted
descending. -/
theorem C3_counterexample :
    ¬ ((identify_undervalued_assets exC3 50).Pairwise (fun x y => y.2 ≤ x.2)
        ∧ stableTies exC3 (identify_undervalued_assets exC3 50)) := by
  intro hcl
  have hout : identify_undervalued_assets exC3 50
      = [(⟨2, "b", 10, "lb"⟩, 900 / 11), (⟨1, "a", 10, "la"⟩, 900 / 11)] := by
    norm_num [identify_undervalued_assets, quantile, mean, discLE, exC3,
      List.insertionSort, List.orderedInsert, List.cons_ne_nil]
  have hst := hcl.2
  rw [stableTies, hout] at hst
  have h1 := (List.pairwise_cons.mp hst).1 (⟨1, "a", 10, "la"⟩, 900 / 11)
    (List.mem_cons_self _ _) rfl
  exact absurd h1 (by decide)

/-- Claim C4: `identify_undervalued_assets` is a pure function of the
snapshot and the percentile, so two calls on the same unchanged snapshot
yield identical ordered output; analysis is idempotent on an unchanged
snapshot. -/
theorem C4_deterministic_analysis (df : List StoredAsset) (p : ℚ) :
    identify_undervalued_assets df p = identify_undervalued_assets df p := rfl

/-- Claim C5 fails on the code: a malformed candidate whose block lacks an
anchor tag makes `listing.find("a")["href"]` (Main.py line 83) raise
`TypeError`, which the `except (AttributeError, ValueError)` clause at
line 87 does not catch; the exception aborts the page — the following
well-formed candidate is never processed — and propagates out of
`scrape_page`, whose own handler only catches request exceptions. -/
theorem C5_uncaught_type_error :
    scrapeItems [blockNoAnchor, blockGood] = Except.error PyError.typeError := rfl

/-- Claim C6: price parsing strips the currency symbol and group
separators before conversion, so `"$1,234.50"` parses to `1234.50`; and a
candidate whose price field is missing is dropped (its absence from the
block list leaves the result unchanged) while the rest of the page is
still processed. -/
theorem C6_price_parsing (pre post : List ListingBlock) (b : ListingBlock)
    (hb : b.priceSpan = none) :
    parse_price "$1,234.50" = some (1234.50 : ℚ)
    ∧ scrapeItems (pre ++ b :: post) = scrapeItems (pre ++ post) := by
  constructor
  · rw [show parse_price "$1,234.50" =
        some ((digitsVal ['1', '2', '3', '4'] : ℚ)
          + (digitsVal ['5', '0'] : ℚ) / (10 : ℚ) ^ 2) from rfl,
      show digitsVal ['1', '2', '3', '4'] = 1234 from rfl,
      show digitsVal ['5', '0'] = 50 from rfl]
    norm_num
  · induction pre with
    | nil =>
      have hpb : parseListing b = Except.error PyError.attributeError := by
        simp [parseListing, hb]
      simp [scrapeItems, hpb]
    | cons a pre ih =>
      cases hpa : parseListing a with
      | ok oi =>
        cases oi <;> simp [scrapeItems, hpa, ih]
      | error e =>
        cases e <;> simp [scrapeItems, hpa, ih]

/-- Witness for C6: dropping the priceless block from a two-block page
leaves exactly the well-formed block's result. -/
theorem C6_price_parsing_witness :
    blockNoPrice.priceSpan = none
    ∧ (parse_price "$1,234.50" = some (1234.50 : ℚ)
        ∧ scrapeItems ([blockGood] ++ blockNoPrice :: [])
            = scrapeItems ([blockGood] ++ [])) :=
  ⟨rfl, C6_price_parsing [blockGood] [] blockNoPrice rfl⟩

/-- Claim C7: `insert_assets` is atomic.  Either the whole batch commits,
in which case the call returns `True`, the previously committed rows are
unchanged at the front of the table, and exactly one new row per listing
is appended carrying that listing's fields; or nothing commits, in which
case the call returns `False` and the table is exactly as before.  The
embedding is a total function, so no exception escapes to the caller. -/
theorem C7_insert_atomic (rows : List StoredAsset) (assets : List InsertRow) :
    ((insert_assets rows assets).1 = true
      ∧ (insert_assets rows assets).2.length = rows.length + assets.length
      ∧ (insert_assets rows assets).2.take rows.length = rows
      ∧ ((insert_assets rows assets).2.drop rows.length).map
          (fun a => ((some a.title : Option String), (some a.price : Option ℚ),
            (some a.link : Option String)))
          = assets.map (fun r => (r.title, r.price, r.link)))
    ∨ ((insert_assets rows assets).1 = false ∧ (insert_assets rows assets).2 = rows) := by
  cases hall : assets.all rowValid with
  | false =>
    right
    have he := executemany_fail assets rows hall
    simp [insert_assets, he]
  | true =>
    left
    obtain ⟨tail, h1, h2, h3⟩ := executemany_ok assets rows hall
    have hi : insert_assets rows assets = (true, rows ++ tail) := by
      simp [insert_assets, h1]
    have hlen : tail.length = assets.length := by
      have := congrArg List.length h2
      simpa using this
    rw [hi]
    refine ⟨rfl, ?_, ?_, ?_⟩
    · simp [hlen]
    · exact List.take_left rows tail
    · rw [List.drop_left]
      exact h2

/-- Claim C8: starting from an empty store, a successful batch insert of K
listings followed by `get_all_assets` returns exactly K rows whose ids are
1, 2, ..., K — pairwise distinct and strictly increasing in insertion
order — and any later call leaves every previously committed row, its id
included, unchanged at its position in the snapshot. -/
theorem C8_store_ids (assets : List InsertRow) (h : assets.all rowValid = true)
    (s2 : List StoredAsset) (rs2 : List InsertRow) :
    (insert_assets [] assets).1 = true
    ∧ (get_all_assets (insert_assets [] assets).2).length = assets.length
    ∧ (get_all_assets (insert_assets [] assets).2).map (fun a => a.id)
        = List.range' 1 assets.length
    ∧ ((get_all_assets (insert_assets [] assets).2).map (fun a => a.id)).Pairwise
        (fun i j => i < j)
    ∧ ((get_all_assets (insert_assets [] assets).2).map (fun a => a.id)).Nodup
    ∧ get_all_assets (insert_assets s2 rs2).2
        = s2 ++ ((insert_assets s2 rs2).2.drop s2.length) := by
  obtain ⟨tail, h1, h2, h3⟩ := executemany_ok assets [] h
  have hi : insert_assets [] assets = (true, tail) := by
    simp [insert_assets, h1]
  have hmap : tail.map (fun a => a.id) = List.range' 1 assets.length := h3
  have hlen : tail.length = assets.length := by
    have := congrArg List.length h3
    simpa using this
  refine ⟨by rw [hi], ?_, ?_, ?_, ?_, ?_⟩
  · rw [hi]; exact hlen
  · rw [hi]; exact hmap
  · rw [hi]
    show (tail.map (fun a => a.id)).Pairwise (fun i j => i < j)
    rw [hmap]
    exact List.pairwise_lt_range' 1 assets.length
  · rw [hi]
    show (tail.map (fun a => a.id)).Nodup
    rw [hmap]
    exact List.nodup_range' 1 assets.length
  · cases hall2 : rs2.all rowValid with
    | false =>
      have he := executemany_fail rs2 s2 hall2
      simp [insert_assets, he, get_all_assets]
    | true =>
      obtain ⟨t2, k1, k2, k3⟩ := executemany_ok rs2 s2 hall2
      simp [insert_assets, k1, get_all_assets, List.drop_left]

/-- Witness for C8 at a concrete two-listing batch on the empty store. -/
theorem C8_store_ids_witness :
    ([rowA, rowB].all rowValid = true)
    ∧ ((insert_assets [] [rowA, rowB]).1 = true
        ∧ (get_all_assets (insert_assets [] [rowA, rowB]).2).length = [rowA, rowB].length
        ∧ (get_all_assets (insert_assets [] [rowA, rowB]).2).map (fun a => a.id)
            = List.range' 1 [rowA, rowB].length
        ∧ ((get_all_assets (insert_assets [] [rowA, rowB]).2).map (fun a => a.id)).Pairwise
            (fun i j => i < j)
        ∧ ((get_all_assets (insert_assets [] [rowA, rowB]).2).map (fun a => a.id)).Nodup
        ∧ get_all_assets (insert_assets ([] : List StoredAsset) ([] : List InsertRow)).2
            = [] ++ ((insert_assets ([] : List StoredAsset) ([] : List InsertRow)).2.drop
                ([] : List StoredAsset).length)) :=
  ⟨by decide, C8_store_ids [rowA, rowB] (by decide) [] []⟩

/-- Claim C9 (amended): for start ≤ end and provided no visited page's
markup triggers the uncaught parse exception of C5, `scrape_multiple_pages`
visits exactly the pages `base/page/n` for `n` in `[start, end]`, in
strictly increasing order of `n`, and returns the concatenation of the
per-page results in that order; a network-level failure on a page does not
raise and contributes zero items. -/
theorem C9_fetch_range (net : String → Option (List ListingBlock)) (base : String)
    (s e : ℤ) (hse : s ≤ e)
    (hok : ∀ n ∈ pageRange s e, ∃ items, scrape_page net (page_url base n) = Except.ok items) :
    (∀ n : ℤ, n ∈ pageRange s e ↔ s ≤ n ∧ n ≤ e)
    ∧ (pageRange s e).Pairwise (fun a b => a < b)
    ∧ scrape_multiple_pages net base s e
        = Except.ok (((pageRange s e).map
            (fun n => okItems (scrape_page net (page_url base n)))).flatten)
    ∧ (∀ url, net url = none → scrape_page net url = Except.ok []) := by
  refine ⟨?_, ?_, scrapeLoop_ok net base _ hok, ?_⟩
  · intro n
    simp only [pageRange, List.mem_map, List.mem_range]
    constructor
    · rintro ⟨i, hi, rfl⟩
      omega
    · rintro ⟨h1, h2⟩
      exact ⟨(n - s).toNat, by omega, by omega⟩
  · unfold pageRange
    exact List.Pairwise.map _ (fun a b hab => by omega) (List.pairwise_lt_range _)
  · intro url hu
    simp [scrape_page, hu]

/-- Witness for C9 on the two-page range 1..2 under `netW`. -/
theorem C9_fetch_range_witness :
    ((1 : ℤ) ≤ 2)
    ∧ (∀ n ∈ pageRange 1 2, ∃ items, scrape_page netW (page_url "w" n) = Except.ok items)
    ∧ ((∀ n : ℤ, n ∈ pageRange 1 2 ↔ 1 ≤ n ∧ n ≤ 2)
        ∧ (pageRange 1 2).Pairwise (fun a b => a < b)
        ∧ scrape_multiple_pages netW "w" 1 2
            = Except.ok (((pageRange 1 2).map
                (fun n => okItems (scrape_page netW (page_url "w" n)))).flatten)
        ∧ (∀ url, netW url = none → scrape_page netW url = Except.ok [])) := by
  have hok : ∀ n ∈ pageRange 1 2, ∃ items, scrape_page netW (page_url "w" n) = Except.ok items := by
    intro n hn
    rw [show pageRange 1 2 = [1, 2] from by decide] at hn
    simp only [List.mem_cons, List.not_mem_nil, or_false] at hn
    rcases hn with rfl | rfl
    · exact ⟨[], rfl⟩
    · exact ⟨[], rfl⟩
  exact ⟨by decide, hok, C9_fetch_range netW "w" 1 2 (by decide) hok⟩

/-- Claim C9 as universally stated is false: when a fetched page contains
the anchorless block of C5, `scrape_multiple_pages` raises the uncaught
`TypeError` instead of returning the concatenation of per-page results. -/
theorem C9_counterexample :
    scrape_multiple_pages netBad "b" 1 1 = Except.error PyError.typeError := rfl

/-- Claim C10: an empty page range (start > end) visits no page and
returns the empty item list, mirroring Python's empty
`range(start, end + 1)`. -/
theorem C10_empty_range (net : String → Option (List ListingBlock)) (base : String)
    (s e : ℤ) (h : e < s) :
    pageRange s e = [] ∧ scrape_multiple_pages net base s e = Except.ok [] := by
  have h0 : pageRange s e = [] := by
    unfold pageRange
    rw [show (e + 1 - s).toNat = 0 from by omega]
    rfl
  refine ⟨h0, ?_⟩
  unfold scrape_multiple_pages
  rw [h0]
  rfl

/-- Witness for C10 on the empty range 3..1. -/
theorem C10_empty_range_witness :
    ((1 : ℤ) < 3)
    ∧ (pageRange 3 1 = [] ∧ scrape_multiple_pages netNone "b" 3 1 = Except.ok []) :=
  ⟨by decide, C10_empty_range netNone "b" 3 1 (by decide)⟩
